import Mathlib

/-
  Shallow embedding of the compyler front end (lexer.py, parser.py,
  typecheck.py, astnode.py, main.py), translated function by function from
  the Python source.

  Conventions:
  * Python generators / loops become fuel-indexed recursive functions; a
    result of `Option.none` means the fuel ran out, i.e. the Python code
    has not terminated within that many steps.  Proving that a function
    returns `Option.none` for every fuel value shows the Python loop never
    terminates.
  * Raised exceptions become `Except.error` values.  `PyErr.typeErr` models
    a Python `TypeError` (e.g. calling a function with the wrong number of
    arguments), which is distinct from the project's own exception classes.
  * Token values (`Token.value`) are `None`, a string, or an integer in the
    source, modelled by `TVal`.
-/

namespace Compyler

/-- Python token value: None, str or int (lexer.py Token.value). -/
inductive TVal where
  | none : TVal
  | str : String → TVal
  | int : Int → TVal
deriving DecidableEq, Repr

/-- lexer.py `Token`: type tag, value, line.  `Token.__eq__` compares only
the `type` field (against another token or against a bare string). -/
structure Token where
  type : String
  value : TVal
  line : Int
deriving DecidableEq, Repr

/-! ## Lexer (lexer.py `Lexer`, configured with main.py `userdefined`)

main.py builds the token configuration
  `{"atom": ["while","if","else","return","struct","sizeof"]
            + [">>>", ">>", "<<", "<", ">" "<=", ">=", "!=", "=="]
            + list("(){}*/+-~|&^=<>,.;")}`.
Note the missing comma in the Python source: `">" "<="` is string-literal
concatenation, so the configured alternation contains the literal `"><="`
and does not contain `"<="` on its own.  The alternation below reproduces
the exact resulting order. -/

def atomList : List String :=
  ["while", "if", "else", "return", "struct", "sizeof",
   ">>>", ">>", "<<", "<", "><=", ">=", "!=", "==",
   "(", ")", "\x7b", "\x7d", "*", "/", "+", "-", "~", "|", "&", "^",
   "=", "<", ">", ",", ".", ";"]

/-- Python `\s` for the ASCII inputs handled here. -/
def isWsChar (c : Char) : Bool :=
  c = ' ' || c = '\t' || c = '\n' || c = '\r' || c = '\x0b' || c = '\x0c'

/-- Python `\w` (ASCII): letter, digit or underscore. -/
def isWordChar (c : Char) : Bool :=
  c.isAlpha || c.isDigit || c = '_'

def isHexDigit (c : Char) : Bool :=
  c.isDigit || ('a' ≤ c && c ≤ 'f') || ('A' ≤ c && c ≤ 'F')

/-- Leading run of whitespace characters (regex `\s*`). -/
def takeWs : List Char → List Char × List Char
  | [] => ([], [])
  | c :: cs =>
    if isWsChar c then
      let (w, r) := takeWs cs
      (c :: w, r)
    else ([], c :: cs)

/-- One comment group iteration `[#][^\n]*\n` (the newline is required by
the regex; without it the group does not match). -/
def takeComment : List Char → Option (List Char × List Char)
  | '#' :: cs =>
    let rec toNl : List Char → Option (List Char × List Char)
      | [] => Option.none
      | '\n' :: r => some (['\n'], r)
      | c :: r =>
        match toNl r with
        | some (body, rest) => some (c :: body, rest)
        | Option.none => Option.none
    match toNl cs with
    | some (body, rest) => some ('#' :: body, rest)
    | Option.none => Option.none
  | _ => Option.none

/-- The skip part of the combined regex: `(?:\s*)(?:[#][^\n]*\n\s*)*`.
Returns (consumed characters, rest). -/
def skipWsComments (fuel : Nat) (cs : List Char) : List Char × List Char :=
  match fuel with
  | 0 => ([], cs)
  | fuel + 1 =>
    let (w, r) := takeWs cs
    match takeComment r with
    | some (cm, r2) =>
      let (w2, r3) := skipWsComments fuel r2
      (w ++ cm ++ w2, r3)
    | Option.none => (w, r)

/-- Match a literal string at the head of the input; returns the rest. -/
def matchLit (lit : List Char) (cs : List Char) : Option (List Char) :=
  match lit, cs with
  | [], rest => some rest
  | _ :: _, [] => Option.none
  | l :: ls, c :: rest => if l = c then matchLit ls rest else Option.none

/-- First atom of the alternation (in configuration order) that matches at
the head of the input; returns (atom text, rest).  The regex alternation
tries the alternatives left to right, with no word-boundary lookahead. -/
def matchAtom (cs : List Char) : Option (String × List Char) :=
  (atomList.foldl (fun acc a =>
    match acc with
    | some r => some r
    | Option.none =>
      match matchLit a.data cs with
      | some rest => some (a, rest)
      | Option.none => Option.none) Option.none)

/-- Quoted-string body `(\\.|[^\\"])*` up to the closing quote.  Returns
(raw characters including both quotes, rest). -/
def takeStrBody : List Char → Option (List Char × List Char)
  | [] => Option.none
  | '"' :: rest => some (['"'], rest)
  | '\\' :: e :: rest =>
    match takeStrBody rest with
    | some (body, r) => some ('\\' :: e :: body, r)
    | Option.none => Option.none
  | '\\' :: [] => Option.none
  | c :: rest =>
    match takeStrBody rest with
    | some (body, r) => some (c :: body, r)
    | Option.none => Option.none

/-- Regex lookahead `(?=\W)`: there must BE a next character and it must
not be a word character (at end of input the lookahead fails). -/
def lookaheadNonWord : List Char → Bool
  | [] => false
  | c :: _ => !(isWordChar c)

def takeDigits : List Char → List Char × List Char
  | [] => ([], [])
  | c :: cs =>
    if c.isDigit then
      let (d, r) := takeDigits cs
      (c :: d, r)
    else ([], c :: cs)

def takeHexDigits : List Char → List Char × List Char
  | [] => ([], [])
  | c :: cs =>
    if isHexDigit c then
      let (d, r) := takeHexDigits cs
      (c :: d, r)
    else ([], c :: cs)

def digitVal (c : Char) : Nat :=
  if c.isDigit then c.toNat - '0'.toNat
  else if 'a' ≤ c && c ≤ 'f' then c.toNat - 'a'.toNat + 10
  else if 'A' ≤ c && c ≤ 'F' then c.toNat - 'A'.toNat + 10
  else 0

def decValue (ds : List Char) : Nat := ds.foldl (fun n c => n * 10 + digitVal c) 0

def hexValue (ds : List Char) : Nat := ds.foldl (fun n c => n * 16 + digitVal c) 0

/-- Identifier `[a-zA-Z_]\w*`. -/
def matchIdent : List Char → Option (List Char × List Char)
  | [] => Option.none
  | c :: cs =>
    if c.isAlpha || c = '_' then
      let rec wordRun : List Char → List Char × List Char
        | [] => ([], [])
        | d :: ds =>
          if isWordChar d then
            let (w, r) := wordRun ds
            (d :: w, r)
          else ([], d :: ds)
      let (w, r) := wordRun cs
      some (c :: w, r)
    else Option.none

/-- The token part of the combined regex: the first alternative of
`str | hex | int | atom | id` that matches at the head of the input, with
the classification fix-ups of `Lexer.tokenize` (hex and int become integer
values under kind "int"; an atom's kind is its own text; a string keeps
its raw matched text, quotes and escapes included).  Returns
(token kind, token value, matched characters, rest).

Shorter backtracking splits of the hex/int digit runs always place a word
character (a digit) right after the match, so they fail the `(?=\W)`
lookahead whenever the maximal run does; matching the maximal run only is
therefore faithful to the regex engine. -/
def matchTokenAlt (cs : List Char) : Option (String × TVal × List Char × List Char) :=
  -- strings
  match cs with
  | '"' :: rest =>
    match takeStrBody rest with
    | some (body, r) =>
      if lookaheadNonWord r then
        let raw := '"' :: body
        some ("str", TVal.str (String.mk raw), raw, r)
      else Option.none
    | Option.none => Option.none
  | _ =>
    -- hex integer literals
    let hexTry : Option (String × TVal × List Char × List Char) :=
      match cs with
      | '0' :: 'x' :: rest =>
        match takeHexDigits rest with
        | ([], _) => Option.none
        | (ds, r) =>
          if lookaheadNonWord r then
            some ("int", TVal.int (hexValue ds), '0' :: 'x' :: ds, r)
          else Option.none
      | _ => Option.none
    match hexTry with
    | some t => some t
    | Option.none =>
      -- decimal integer literals
      let intTry : Option (String × TVal × List Char × List Char) :=
        match takeDigits cs with
        | ([], _) => Option.none
        | (ds, r) =>
          if lookaheadNonWord r then some ("int", TVal.int (decValue ds), ds, r)
          else Option.none
      match intTry with
      | some t => some t
      | Option.none =>
        -- user-defined atoms (kind tag becomes the matched text)
        match matchAtom cs with
        | some (a, r) => some (a, TVal.str a, a.data, r)
        | Option.none =>
          -- identifiers
          match matchIdent cs with
          | some (w, r) => some ("id", TVal.str (String.mk w), w, r)
          | Option.none => Option.none

def countNl (cs : List Char) : Nat := cs.countP (fun c => c = '\n')

/-- One `self.pattern.match(src, pos)` attempt: skip whitespace/comments,
then match exactly one token alternative.  Returns the token (with the
line counter already advanced over the whole matched span, as in
`Lexer.tokenize`), the rest of the input and the new line counter. -/
def matchOne (cs : List Char) (line : Int) : Option (Token × List Char × Int) :=
  let (skipped, r) := skipWsComments (cs.length + 1) cs
  match matchTokenAlt r with
  | some (kind, v, matched, rest) =>
    let line' := line + (countNl skipped + countNl matched : Nat)
    some (⟨kind, v, line'⟩, rest, line')
  | Option.none => Option.none

/-- `Lexer.tokenize` loop: yield tokens until the pattern fails to match,
then stop silently (`if not m: break`) — no end-of-source token and no
exception are ever produced by this stage. -/
def tokenizeChars (fuel : Nat) (cs : List Char) (line : Int) : List Token :=
  match fuel with
  | 0 => []
  | fuel + 1 =>
    match matchOne cs line with
    | some (t, rest, line') => t :: tokenizeChars fuel rest line'
    | Option.none => []

def tokenize (src : String) : List Token :=
  tokenizeChars (src.data.length + 1) src.data 1

/-! ## AST (astnode.py)

astnode.py builds node classes dynamically; here each class is a
constructor (expressions and statements in two inductives, since Python
only distinguishes them by use).  `FCallStatement` is used by the source
both as an expression (inside `parse_factor`) and as a statement, so it
appears in both inductives.  `parse_statement` returns a Python tuple
`(decl, assign)` for a declaration with initializer; `Stmt.TupleStmt`
models that tuple (it can end up as the body of an `if`/`while`/function,
exactly as in the source).  `StructAccess.left` is a bare string for the
innermost node and a node otherwise, giving the two constructors
`StructAccessBase`/`StructAccessNode`.  `Expr.NoneExpr` models the Python
`None` that `parse_struct_access` returns when its loop body never runs
(unreachable from the call sites, which all guard on a `.` lookahead). -/

/-- astnode.py `Type`: base type name (a token value) and indirection. -/
structure Ty where
  line : Int
  type : TVal
  level : Nat
deriving DecidableEq, Repr

inductive Expr where
  | SLiteral (line : Int) (value : TVal)
  | ILiteral (line : Int) (value : TVal)
  | Variable (line : Int) (name : TVal)
  | UnaryOp (line : Int) (op : String) (right : Expr)
  | PointerOp (line : Int) (op : String) (right : Expr) (level : Nat)
  | BinaryOp (line : Int) (op : String) (left : Expr) (right : Expr)
  | StructAccessBase (line : Int) (left : TVal) (right : TVal)
  | StructAccessNode (line : Int) (left : Expr) (right : TVal)
  | FCallExpr (line : Int) (name : TVal) (args : List Expr)
  | NoneExpr
deriving Repr

/-- astnode.py `Condition`. -/
structure CondNode where
  line : Int
  op : String
  left : Expr
  right : Expr
deriving Repr

inductive Stmt where
  | CtrlStatement (line : Int) (op : String)
  | RetStatement (line : Int) (value : Expr)
  | StoreStatement (line : Int) (level : Nat) (ptr : Expr) (value : Expr)
  | VarDeclStatement (line : Int) (type : Ty) (name : TVal)
  | StructStoreStatement (line : Int) (struct : Expr) (value : Expr)
  | AssignStatement (line : Int) (var : TVal) (value : Expr)
  | WhileStatement (line : Int) (cond : CondNode) (stmt : Stmt)
  | IfStatement (line : Int) (cond : CondNode) (stmt : Stmt) (elsestmt : Option Stmt)
  | BlockStatement (line : Int) (stmts : List Stmt)
  | FCallStatement (line : Int) (name : TVal) (args : List Expr)
  | TupleStmt (fst : Stmt) (snd : Stmt)
deriving Repr

/-- astnode.py `VarDeclStatement` as it appears in struct/function
declaration lists.  `soffset` is the attribute `expand_struct` sets on the
copies it collects into the flattened field list (absent, i.e. `none`, at
parse time). -/
structure VDecl where
  line : Int
  type : Ty
  name : TVal
  soffset : Option Nat
deriving DecidableEq, Repr

/-- astnode.py `Struct`.  `size` is set by the semantic analyzer
(`check_struct`), absent at parse time. -/
structure StructNode where
  line : Int
  name : TVal
  decls : List VDecl
  size : Option Nat
deriving DecidableEq, Repr

/-- astnode.py `Func`.  Note `parse_function` reuses the local variable
`name` inside its parameter loop, so the recorded name is the last
parameter's name whenever the parameter list is nonempty. -/
structure FuncNode where
  line : Int
  type : Ty
  name : TVal
  args : List VDecl
  stmt : Stmt
deriving Repr

/-! ## Parser (parser.py)

Each parsing function threads the remaining token list (the `Lookahead`
object: `peek` is the head, or the default `Token("eof", None, -1)` once
the underlying generator is exhausted).  `ParserException` becomes
`Except.error`.  The outer `Option` layer is fuel: `Option.none` means the
Python code has not terminated within the given number of steps. -/

/-- parser.py `ParserException` payload: offending line and message. -/
structure PErr where
  line : Int
  msg : String
deriving DecidableEq, Repr

/-- The default token `parse` installs in the `Lookahead`. -/
def eofTok : Token := ⟨"eof", TVal.none, -1⟩

def peekT (ts : List Token) : Token := ts.headD eofTok

def nextT (ts : List Token) : Token × List Token := (peekT ts, ts.tail)

def ParseRes (α : Type) : Type := Option (Except PErr (α × List Token))

def pok {α : Type} (a : α) (ts : List Token) : ParseRes α := some (.ok (a, ts))

def perr {α : Type} (line : Int) (msg : String) : ParseRes α :=
  some (.error ⟨line, msg⟩)

def pbind {α β : Type} (x : ParseRes α) (f : α → List Token → ParseRes β) :
    ParseRes β :=
  match x with
  | Option.none => Option.none
  | some (.error e) => some (.error e)
  | some (.ok (a, ts)) => f a ts

/-- parser.py `expect`: consume one token; if its kind is among the
accepted kinds, return it, otherwise raise listing the accepted kinds. -/
def expectT (ts : List Token) (expects : List String) :
    Except PErr (Token × List Token) :=
  let (t, ts') := nextT ts
  if expects.contains t.type then .ok (t, ts')
  else .error ⟨t.line, "expected " ++ String.intercalate " or " expects⟩

def pexpect {α : Type} (ts : List Token) (expects : List String)
    (f : Token → List Token → ParseRes α) : ParseRes α :=
  match expectT ts expects with
  | .error e => some (.error e)
  | .ok (t, ts') => f t ts'

mutual

/-- parser.py `parse_expression` (additive level, iterative loop). -/
def parse_expression : Nat → List Token → ParseRes Expr
  | 0, _ => Option.none
  | fuel + 1, ts => pbind (parse_mult fuel ts) (fun ret ts => expr_loop fuel ret ts)

def expr_loop : Nat → Expr → List Token → ParseRes Expr
  | 0, _, _ => Option.none
  | fuel + 1, ret, ts =>
    if ["+", "-"].contains (peekT ts).type then
      let (t, ts1) := nextT ts
      pbind (parse_mult fuel ts1) (fun right ts2 =>
        expr_loop fuel (.BinaryOp t.line t.type ret right) ts2)
    else pok ret ts

/-- parser.py `parse_mult`. -/
def parse_mult : Nat → List Token → ParseRes Expr
  | 0, _ => Option.none
  | fuel + 1, ts => pbind (parse_shift fuel ts) (fun ret ts => mult_loop fuel ret ts)

def mult_loop : Nat → Expr → List Token → ParseRes Expr
  | 0, _, _ => Option.none
  | fuel + 1, ret, ts =>
    if ["*", "/"].contains (peekT ts).type then
      let (t, ts1) := nextT ts
      pbind (parse_shift fuel ts1) (fun right ts2 =>
        mult_loop fuel (.BinaryOp t.line t.type ret right) ts2)
    else pok ret ts

/-- parser.py `parse_shift`.  The first operand comes from
`parse_bitwise`, but each right operand comes from `parse_unary`. -/
def parse_shift : Nat → List Token → ParseRes Expr
  | 0, _ => Option.none
  | fuel + 1, ts => pbind (parse_bitwise fuel ts) (fun ret ts => shift_loop fuel ret ts)

def shift_loop : Nat → Expr → List Token → ParseRes Expr
  | 0, _, _ => Option.none
  | fuel + 1, ret, ts =>
    if [">>>", ">>", "<<"].contains (peekT ts).type then
      let (t, ts1) := nextT ts
      pbind (parse_unary fuel ts1) (fun right ts2 =>
        shift_loop fuel (.BinaryOp t.line t.type ret right) ts2)
    else pok ret ts

/-- parser.py `parse_bitwise`. -/
def parse_bitwise : Nat → List Token → ParseRes Expr
  | 0, _ => Option.none
  | fuel + 1, ts => pbind (parse_unary fuel ts) (fun ret ts => bitwise_loop fuel ret ts)

def bitwise_loop : Nat → Expr → List Token → ParseRes Expr
  | 0, _, _ => Option.none
  | fuel + 1, ret, ts =>
    if ["&", "|", "^"].contains (peekT ts).type then
      let (t, ts1) := nextT ts
      pbind (parse_unary fuel ts1) (fun right ts2 =>
        bitwise_loop fuel (.BinaryOp t.line t.type ret right) ts2)
    else pok ret ts

/-- parser.py `parse_unary`. -/
def parse_unary : Nat → List Token → ParseRes Expr
  | 0, _ => Option.none
  | fuel + 1, ts =>
    if !(["-", "~", "*", "&", "sizeof"].contains (peekT ts).type) then
      parse_factor fuel ts
    else
      let (t, ts1) := nextT ts
      pbind (unary_rep_loop fuel t 1 ts1) (fun level ts2 =>
        if (t.type = "-" || t.type = "~") && level % 2 = 0 then
          parse_factor fuel ts2
        else
          pbind (parse_factor fuel ts2) (fun factor ts3 =>
            if ["*", "&", "sizeof"].contains t.type then
              pok (.PointerOp t.line t.type factor level) ts3
            else
              pok (.UnaryOp t.line t.type factor) ts3))

/-- parser.py `parse_unary`'s repetition loop
  `while tok.peek == t: ... level += 1`.
Token equality compares kinds only.  The loop body never calls
`tok.next()`, so the lookahead token — and hence the loop condition —
never changes; this is translated verbatim (the token-list argument is
passed through unchanged). -/
def unary_rep_loop : Nat → Token → Nat → List Token → ParseRes Nat
  | 0, _, _, _ => Option.none
  | fuel + 1, t, level, ts =>
    if (peekT ts).type = t.type then
      if t.type = "sizeof" then perr t.line "sizeof sizeof not supported"
      else unary_rep_loop fuel t (level + 1) ts
    else pok level ts

/-- parser.py `parse_factor`. -/
def parse_factor : Nat → List Token → ParseRes Expr
  | 0, _ => Option.none
  | fuel + 1, ts =>
    let (t, ts1) := nextT ts
    if t.type = "(" then
      pbind (parse_expression fuel ts1) (fun e ts2 =>
        pexpect ts2 [")"] (fun _ ts3 => pok e ts3))
    else if t.type = "int" then pok (.ILiteral t.line t.value) ts1
    else if t.type = "id" then
      if (peekT ts1).type = "(" then
        pbind (parse_fcall fuel t ts1) (fun p ts2 =>
          pok (.FCallExpr p.1 p.2.1 p.2.2) ts2)
      else if (peekT ts1).type = "." then
        pbind (parse_struct_access fuel t ts1) (fun r ts2 =>
          pok (match r with | some e => e | Option.none => .NoneExpr) ts2)
      else pok (.Variable t.line t.value) ts1
    else if t.type = "str" then pok (.SLiteral t.line t.value) ts1
    else perr t.line "expected a factor"

/-- parser.py `parse_fcall` (reaching here the lookahead is `(`, which is
skipped first).  With an empty argument list the `)` is NOT consumed (the
function has no `else: tok.next()`, unlike `parse_function`).  The node is
`FCallStatement` in the source whether used as expression or statement, so
this returns its pieces (line, name, args) and each call site builds the
expression or statement form. -/
def parse_fcall : Nat → Token → List Token → ParseRes (Int × TVal × List Expr)
  | 0, _, _ => Option.none
  | fuel + 1, t, ts =>
    let ts1 := ts.tail
    if (peekT ts1).type ≠ ")" then
      pbind (fcall_args_loop fuel [] ts1) (fun args ts2 =>
        pok (t.line, t.value, args) ts2)
    else pok (t.line, t.value, []) ts1

def fcall_args_loop : Nat → List Expr → List Token → ParseRes (List Expr)
  | 0, _, _ => Option.none
  | fuel + 1, acc, ts =>
    pbind (parse_expression fuel ts) (fun arg ts1 =>
      pexpect ts1 [")", ","] (fun t ts2 =>
        if t.type = ")" then pok (acc ++ [arg]) ts2
        else fcall_args_loop fuel (acc ++ [arg]) ts2))

/-- parser.py `parse_struct_access`: `ret` starts as `None` and the loop
runs while the lookahead is `.`; the first iteration keys the chain on the
initial token's value, later ones build the left-recursive tree. -/
def parse_struct_access : Nat → Token → List Token → ParseRes (Option Expr)
  | 0, _, _ => Option.none
  | fuel + 1, t, ts => struct_access_loop fuel t Option.none ts

def struct_access_loop : Nat → Token → Option Expr → List Token → ParseRes (Option Expr)
  | 0, _, _, _ => Option.none
  | fuel + 1, t, ret, ts =>
    if (peekT ts).type = "." then
      let ts1 := ts.tail
      pexpect ts1 ["id"] (fun n ts2 =>
        match ret with
        | Option.none => struct_access_loop fuel t (some (.StructAccessBase t.line t.value n.value)) ts2
        | some r => struct_access_loop fuel t (some (.StructAccessNode n.line r n.value)) ts2)
    else pok ret ts

end

/-- parser.py `parse_vardecl`'s `while tok.peek == "*"` run: count the
leading `*` tokens (also used by the memory-store branch of
`parse_statement`). -/
def star_run : List Token → Nat × List Token
  | [] => (0, [])
  | t :: ts =>
    if t.type = "*" then
      let (n, r) := star_run ts
      (n + 1, r)
    else (0, t :: ts)

/-- parser.py `parse_vardecl` with the first token already consumed
(`t != None` path).  Returns the `Type` node and the declared name. -/
def parse_vardecl_t (t : Token) (ts : List Token) :
    Except PErr ((Ty × TVal) × List Token) :=
  let (lvl, ts1) := star_run ts
  match expectT ts1 ["id"] with
  | .error e => .error e
  | .ok (name, ts2) => .ok ((⟨t.line, t.value, lvl⟩, name.value), ts2)

/-- parser.py `parse_vardecl` (`t == None` path: consume the type name
first). -/
def parse_vardecl (ts : List Token) : Except PErr ((Ty × TVal) × List Token) :=
  match expectT ts ["id"] with
  | .error e => .error e
  | .ok (t, ts1) => parse_vardecl_t t ts1

/-- parser.py `parse_condition`. -/
def parse_condition (fuel : Nat) (ts : List Token) : ParseRes CondNode :=
  pbind (parse_expression fuel ts) (fun left ts1 =>
    pexpect ts1 ["==", "!=", "<=", ">=", "<", ">"] (fun op ts2 =>
      pbind (parse_expression fuel ts2) (fun right ts3 =>
        pok ⟨op.line, op.type, left, right⟩ ts3)))

mutual

/-- parser.py `parse_statement`: dispatch on the lookahead kind.  The
`break`/`continue` branches compare against kinds the configured lexer
never produces (main.py's atom list has neither word), so they never fire;
they are still translated verbatim.  A declaration with initializer
returns the tuple `(decl, assign)`, modelled by `Stmt.TupleStmt`. -/
def parse_statement : Nat → List Token → ParseRes Stmt
  | 0, _ => Option.none
  | fuel + 1, ts =>
    if (peekT ts).type = "\x7b" then parse_block fuel ts
    else if (peekT ts).type = "if" then parse_if fuel ts
    else if (peekT ts).type = "while" then parse_while fuel ts
    else if (peekT ts).type = "break" then
      let (t, ts1) := nextT ts
      pexpect ts1 [";"] (fun _ ts2 => pok (.CtrlStatement t.line "break") ts2)
    else if (peekT ts).type = "continue" then
      let (t, ts1) := nextT ts
      pexpect ts1 [";"] (fun _ ts2 => pok (.CtrlStatement t.line "cont") ts2)
    else if (peekT ts).type = "return" then
      let (t, ts1) := nextT ts
      pbind (parse_expression fuel ts1) (fun expr ts2 =>
        pexpect ts2 [";"] (fun _ ts3 => pok (.RetStatement t.line expr) ts3))
    else if (peekT ts).type = "*" then
      -- memory store
      let (lvl, ts1) := star_run ts
      pbind (parse_factor fuel ts1) (fun factor ts2 =>
        pexpect ts2 ["="] (fun t ts3 =>
          pbind (parse_expression fuel ts3) (fun expr ts4 =>
            pexpect ts4 [";"] (fun _ ts5 =>
              pok (.StoreStatement t.line lvl factor expr) ts5))))
    else
      -- variable declaration, function call or assignment
      pexpect ts ["id"] (fun i ts1 =>
        if (peekT ts1).type = "id" || (peekT ts1).type = "*" then
          -- variable declaration, possibly desugared with an initializer
          match parse_vardecl_t i ts1 with
          | .error e => some (.error e)
          | .ok ((ty, name), ts2) =>
            if (peekT ts2).type = "=" then
              let ts3 := ts2.tail
              pbind (parse_expression fuel ts3) (fun init ts4 =>
                pexpect ts4 [";"] (fun _ ts5 =>
                  pok (.TupleStmt (.VarDeclStatement i.line ty name)
                        (.AssignStatement i.line name init)) ts5))
            else
              pexpect ts2 [";"] (fun _ ts3 =>
                pok (.VarDeclStatement i.line ty name) ts3)
        else if (peekT ts1).type = "(" then
          -- function call
          pbind (parse_fcall fuel i ts1) (fun p ts2 =>
            pexpect ts2 [";"] (fun _ ts3 =>
              pok (.FCallStatement p.1 p.2.1 p.2.2) ts3))
        else if (peekT ts1).type = "." then
          -- struct member store
          pbind (parse_struct_access fuel i ts1) (fun s ts2 =>
            pexpect ts2 ["="] (fun t ts3 =>
              pbind (parse_expression fuel ts3) (fun expr ts4 =>
                pexpect ts4 [";"] (fun _ ts5 =>
                  pok (.StructStoreStatement t.line
                        (match s with | some e => e | Option.none => .NoneExpr)
                        expr) ts5))))
        else
          -- assignment or error
          pexpect ts1 ["="] (fun t ts2 =>
            pbind (parse_expression fuel ts2) (fun expr ts3 =>
              pexpect ts3 [";"] (fun _ ts4 =>
                pok (.AssignStatement t.line i.value expr) ts4))))

/-- parser.py `parse_block`: a returned tuple (declaration with
initializer) is spliced into the statement list (`stmt_list.extend`). -/
def parse_block : Nat → List Token → ParseRes Stmt
  | 0, _ => Option.none
  | fuel + 1, ts =>
    pexpect ts ["\x7b"] (fun t ts1 =>
      pbind (block_loop fuel [] ts1) (fun stmts ts2 =>
        pok (.BlockStatement t.line stmts) ts2.tail))

def block_loop : Nat → List Stmt → List Token → ParseRes (List Stmt)
  | 0, _, _ => Option.none
  | fuel + 1, acc, ts =>
    if (peekT ts).type ≠ "\x7d" then
      pbind (parse_statement fuel ts) (fun s ts1 =>
        block_loop fuel
          (acc ++ (match s with | .TupleStmt a b => [a, b] | s => [s])) ts1)
    else pok acc ts

/-- parser.py `parse_if`.  Note the source never consumes the `else`
token: when the lookahead is `else` it calls `parse_statement` directly,
which then sees `else` and fails in its identifier branch; translated
verbatim. -/
def parse_if : Nat → List Token → ParseRes Stmt
  | 0, _ => Option.none
  | fuel + 1, ts =>
    pexpect ts ["if"] (fun t ts1 =>
      pbind (parse_condition fuel ts1) (fun cond ts2 =>
        pbind (parse_statement fuel ts2) (fun body ts3 =>
          if (peekT ts3).type = "else" then
            pbind (parse_statement fuel ts3) (fun eb ts4 =>
              pok (.IfStatement t.line cond body (some eb)) ts4)
          else pok (.IfStatement t.line cond body Option.none) ts3)))

/-- parser.py `parse_while`. -/
def parse_while : Nat → List Token → ParseRes Stmt
  | 0, _ => Option.none
  | fuel + 1, ts =>
    pexpect ts ["while"] (fun t ts1 =>
      pbind (parse_condition fuel ts1) (fun cond ts2 =>
        pbind (parse_statement fuel ts2) (fun body ts3 =>
          pok (.WhileStatement t.line cond body) ts3)))

/-- parser.py `parse_function`.  The Python local `name` is rebound by
each iteration of the parameter loop, so the function node records the
last parameter's name when the parameter list is nonempty; the parameter
nodes all carry the line of the `(` token. -/
def parse_function : Nat → List Token → ParseRes FuncNode
  | 0, _ => Option.none
  | fuel + 1, ts =>
    match parse_vardecl ts with
    | .error e => some (.error e)
    | .ok ((retTy, name0), ts1) =>
      pexpect ts1 ["("] (fun t ts2 =>
        if (peekT ts2).type ≠ ")" then
          pbind (func_args_loop fuel t.line [] name0 ts2) (fun p ts3 =>
            pbind (parse_statement fuel ts3) (fun body ts4 =>
              pok (⟨t.line, retTy, p.2, p.1, body⟩ : FuncNode) ts4))
        else
          pbind (parse_statement fuel ts2.tail) (fun body ts3 =>
            pok (⟨t.line, retTy, name0, [], body⟩ : FuncNode) ts3))

def func_args_loop : Nat → Int → List VDecl → TVal → List Token →
    ParseRes (List VDecl × TVal)
  | 0, _, _, _, _ => Option.none
  | fuel + 1, tline, acc, _, ts =>
    match parse_vardecl ts with
    | .error e => some (.error e)
    | .ok ((ty, n), ts1) =>
      pexpect ts1 [",", ")"] (fun c ts2 =>
        if c.type = ")" then pok (acc ++ [⟨tline, ty, n, Option.none⟩], n) ts2
        else func_args_loop fuel tline (acc ++ [⟨tline, ty, n, Option.none⟩]) n ts2)

/-- parser.py `parse_struct`: members are `type name ;`, each member node
carrying the line of its terminating semicolon. -/
def parse_struct : Nat → List Token → ParseRes StructNode
  | 0, _ => Option.none
  | fuel + 1, ts =>
    pexpect ts ["struct"] (fun t ts1 =>
      pexpect ts1 ["id"] (fun name ts2 =>
        pexpect ts2 ["\x7b"] (fun _ ts3 =>
          pbind (struct_members_loop fuel [] ts3) (fun decls ts4 =>
            pexpect ts4 ["\x7d"] (fun _ ts5 =>
              pok (⟨t.line, name.value, decls, Option.none⟩ : StructNode) ts5)))))

def struct_members_loop : Nat → List VDecl → List Token → ParseRes (List VDecl)
  | 0, _, _ => Option.none
  | fuel + 1, acc, ts =>
    if (peekT ts).type = "id" then
      match parse_vardecl ts with
      | .error e => some (.error e)
      | .ok ((ty, name), ts1) =>
        pexpect ts1 [";"] (fun semi ts2 =>
          struct_members_loop fuel (acc ++ [⟨semi.line, ty, name, Option.none⟩]) ts2)
    else pok acc ts

/-- parser.py `parse_program`: top-level loop until the `eof` default
token (i.e. token-stream exhaustion) is the lookahead. -/
def prog_loop : Nat → List FuncNode → List StructNode → List Token →
    ParseRes (List FuncNode × List StructNode)
  | 0, _, _, _ => Option.none
  | fuel + 1, fs, ss, ts =>
    if (peekT ts).type ≠ "eof" then
      if (peekT ts).type = "struct" then
        pbind (parse_struct fuel ts) (fun s ts1 => prog_loop fuel fs (ss ++ [s]) ts1)
      else
        pbind (parse_function fuel ts) (fun f ts1 => prog_loop fuel (fs ++ [f]) ss ts1)
    else pok (fs, ss) ts

end

def parse_program (fuel : Nat) (ts : List Token) :
    ParseRes (List FuncNode × List StructNode) :=
  prog_loop fuel [] [] ts

/-- parser.py `parse`: wrap the token sequence in a `Lookahead` whose
default is `Token("eof", None, -1)` (modelled by `peekT`) and run
`parse_program`. -/
def parseTop (fuel : Nat) (tokens : List Token) :
    ParseRes (List FuncNode × List StructNode) :=
  parse_program fuel tokens

/-! ## Semantic analyzer (typecheck.py)

Exceptions become `Except.error`:
* `PyErr.semantics` is the project's `SemanticsException` (line plus the
  joined message parts);
* `PyErr.typeErr` is a Python `TypeError` — in particular the one raised
  by `expand_struct`'s bare call `type_exists(decl)`, which passes one
  argument to a three-parameter function.  It is not a `SemanticsException`
  and main.py does not catch it.

Mutation is made explicit:
* `check_struct` replaces `struct.decls` with the flattened field list and
  sets `struct.size`; the struct dictionary is threaded and updated.
  (`expand_struct` also writes `decl.soffset` on the original member nodes
  just before copying them; only the copies in the flattened output are
  ever read, so the model records `soffset` on the copies.)
* `expand_struct`'s `scope=set()` default argument is a single set object
  created once at function definition time and shared by every top-level
  call in the process.  Model functions take the current contents of that
  set and return its contents afterwards; a fresh Python process starts it
  empty.  `scope.add`/`scope.remove` run on entry/exit of `expand_struct`,
  but a raised exception skips the `remove`.

Identifier-token values are always strings; `tvalText`/`tvalDot` give the
string operations Python performs on them (`+` concatenation in
`expand_struct`'s renaming, `str` conversion inside exception messages). -/

inductive PyErr where
  | semantics (line : Int) (msg : String)
  | typeErr (msg : String)
deriving DecidableEq, Repr

def tvalText : TVal → String
  | .str s => s
  | .int n => toString n
  | .none => "None"

/-- `decl.name + "." + field.name` in `expand_struct` (always strings for
parser-produced nodes). -/
def tvalDot (a b : TVal) : TVal := .str (tvalText a ++ "." ++ tvalText b)

/-- typecheck.py `builtin_types` width table. -/
def builtinWidth : TVal → Option Nat
  | .str "u0" => some 0
  | .str "u8" => some 1
  | .str "u16" => some 2
  | .str "u32" => some 4
  | .str "u64" => some 8
  | .str "i8" => some 1
  | .str "i16" => some 2
  | .str "i32" => some 4
  | .str "i64" => some 8
  | _ => Option.none

/-- typecheck.py `pointer_size`. -/
def pointer_size : Nat := 8

/-- The struct dictionary `{name: struct}` built by `check_structs`
(association list keyed by name; `check_structs` checks each struct of the
source list in order, and looks the names up here so that in-place
mutations of already-checked structs are visible, as they are through the
shared Python objects — the programs in this development have pairwise
distinct struct names, for which this is exact). -/
def SDict : Type := List (TVal × StructNode)

def dGet (d : SDict) (k : TVal) : Option StructNode :=
  match d with
  | [] => Option.none
  | (k', v) :: rest => if k' = k then some v else dGet rest k

def dHas (d : SDict) (k : TVal) : Bool := (dGet d k).isSome

def dSet (d : SDict) (k : TVal) (v : StructNode) : SDict :=
  match d with
  | [] => [(k, v)]
  | (k', v') :: rest => if k' = k then (k, v) :: rest else (k', v') :: dSet rest k v

/-- The `scope` set (contents of `expand_struct`'s shared default set). -/
def Scope : Type := List TVal

def scopeHas (s : Scope) (x : TVal) : Bool := s.contains x

def scopeAdd (s : Scope) (x : TVal) : Scope := if s.contains x then s else x :: s

def scopeRemove (s : Scope) (x : TVal) : Scope := s.erase x

/-- typecheck.py `type_exists` (the correctly-called, three-argument
form used by `check_vardecl` and `check_func`). -/
def type_exists (typename : TVal) (structs : SDict) (line : Int) :
    Except PyErr Unit :=
  if !(dHas structs typename || (builtinWidth typename).isSome) then
    .error (.semantics line ("type " ++ tvalText typename ++ " not found"))
  else .ok ()

mutual

/-- typecheck.py `expand_struct`: flatten a struct into offset-annotated
fields.  On entry the struct's name is added to the shared `scope` set and
removed on normal exit; exceptions leave the additions in place.  The
result carries the final accumulator value, the flattened fields and the
scope set's contents afterwards. -/
def expand_struct (fuel : Nat) (st : StructNode) (structs : SDict)
    (scope : Scope) (size : Nat) :
    Option (Except PyErr (Nat × List VDecl) × Scope) :=
  match fuel with
  | 0 => Option.none
  | fuel + 1 =>
    let scope1 := scopeAdd scope st.name
    match expand_decls fuel st.decls structs scope1 size [] with
    | Option.none => Option.none
    | some (.error e, sc) => some (.error e, sc)
    | some (.ok (sz, fields), sc) => some (.ok (sz, fields), scopeRemove sc st.name)

/-- The member loop of `expand_struct`, in the source's branch order:
pointer member / name in scope / builtin / known struct / undefined.  The
undefined branch calls `type_exists(decl)` with a single argument, which
raises a Python `TypeError` (so the `raise RuntimeError("unreachable
code")` after it is dead). -/
def expand_decls (fuel : Nat) (decls : List VDecl) (structs : SDict)
    (scope : Scope) (size : Nat) (acc : List VDecl) :
    Option (Except PyErr (Nat × List VDecl) × Scope) :=
  match fuel with
  | 0 => Option.none
  | fuel + 1 =>
    match decls with
    | [] => some (.ok (size, acc), scope)
    | d :: rest =>
      if d.type.level > 0 then
        expand_decls fuel rest structs scope (size + pointer_size)
          (acc ++ [{ d with soffset := some size }])
      else if scopeHas scope d.type.type then
        some (.error (.semantics d.line "recursive struct definition"), scope)
      else
        match builtinWidth d.type.type with
        | some w =>
          expand_decls fuel rest structs scope (size + w)
            (acc ++ [{ d with soffset := some size }])
        | Option.none =>
          match dGet structs d.type.type with
          | some inner =>
            match expand_struct fuel inner structs scope size with
            | Option.none => Option.none
            | some (.error e, sc) => some (.error e, sc)
            | some (.ok (size', fields), sc) =>
              let renamed := fields.map (fun fd => { fd with name := tvalDot d.name fd.name })
              expand_decls fuel rest structs sc size' (acc ++ renamed)
          | Option.none =>
            some (.error (.typeErr
              "type_exists() missing 2 required positional arguments: structs and line"),
              scope)

end

/-- The per-member loop of typecheck.py `check_struct`: duplicate-name
detection interleaved with `check(decl, structs)` (which dispatches to
`check_vardecl`, i.e. the well-formed `type_exists` call). -/
def check_struct_members (decls : List VDecl) (structs : SDict)
    (names : List TVal) : Except PyErr Unit :=
  match decls with
  | [] => .ok ()
  | d :: rest =>
    if names.contains d.name then
      .error (.semantics d.line
        ("struct member " ++ tvalText d.name ++ " defined twice"))
    else
      match type_exists d.type.type structs d.line with
      | .error e => .error e
      | .ok _ => check_struct_members rest structs (d.name :: names)

/-- typecheck.py `check_struct` (`check.register(astnode.Struct)`):
duplicate/type checks, then expansion with the shared default `scope` set
and `size=0`; on success the struct's `decls` are replaced by the
flattened fields and its `size` is set. -/
def check_struct (fuel : Nat) (st : StructNode) (structs : SDict)
    (scope : Scope) : Option (Except PyErr StructNode × Scope) :=
  match check_struct_members st.decls structs [] with
  | .error e => some (.error e, scope)
  | .ok _ =>
    match expand_struct fuel st structs scope 0 with
    | Option.none => Option.none
    | some (.error e, sc) => some (.error e, sc)
    | some (.ok (sz, fields), sc) =>
      some (.ok { st with size := some sz, decls := fields }, sc)

def check_structs_loop (fuel : Nat) (names : List TVal) (d : SDict)
    (scope : Scope) : Option (Except PyErr SDict × Scope) :=
  match names with
  | [] => some (.ok d, scope)
  | n :: rest =>
    match dGet d n with
    | Option.none => check_structs_loop fuel rest d scope
    | some st =>
      match check_struct fuel st d scope with
      | Option.none => Option.none
      | some (.error e, sc) => some (.error e, sc)
      | some (.ok st', sc) => check_structs_loop fuel rest (dSet d n st') sc

/-- typecheck.py `check_structs`: build the by-name dictionary, check each
struct of the list in order, return the dictionary. -/
def check_structs (fuel : Nat) (structs : List StructNode) (scope : Scope) :
    Option (Except PyErr SDict × Scope) :=
  let d : SDict := structs.foldl (fun d s => dSet d s.name s) []
  check_structs_loop fuel (structs.map (·.name)) d scope

/-- The `line` attribute of a statement node (every astnode.py node
carries one; the Python tuple returned for a declaration with initializer
has none, and reading it would raise — that path is unreachable below, so
it is mapped to 0). -/
def stmtLine : Stmt → Int
  | .CtrlStatement line _ => line
  | .RetStatement line _ => line
  | .StoreStatement line _ _ _ => line
  | .VarDeclStatement line _ _ => line
  | .StructStoreStatement line _ _ => line
  | .AssignStatement line _ _ => line
  | .WhileStatement line _ _ => line
  | .IfStatement line _ _ _ => line
  | .BlockStatement line _ => line
  | .FCallStatement line _ _ => line
  | .TupleStmt _ _ => 0

mutual

/-- typecheck.py's `check` fallback behavior on statements inside a
function body, dispatched by node variant with THREE positional arguments
`(stmt, structs, scope)` as `check_block` passes them:
* `BlockStatement` → `check_block` (its own registered handler);
* `VarDeclStatement` → dispatches to `check_vardecl(decl, structs)`, a
  two-parameter function, so the call raises a Python `TypeError`;
* every other statement variant (including `RetStatement`) has no
  registered handler and falls back to the generic `@singledispatch`
  function, which prints a diagnostic and returns `None` — no return type
  is ever collected.
-/
def check_stmt_in_block (fuel : Nat) (s : Stmt) (structs : SDict) :
    Option (Except PyErr (Option Ty)) :=
  match fuel with
  | 0 => Option.none
  | fuel + 1 =>
    match s with
    | .BlockStatement _ stmts => check_block fuel stmts structs Option.none
    | .VarDeclStatement _ _ _ =>
      some (.error (.typeErr
        "check_vardecl() takes 2 positional arguments but 3 were given"))
    | _ => some (.ok Option.none)

/-- typecheck.py `check_block`'s statement loop: collect the first
non-`None` returned type into `func_ret`; a second, different one raises
"return type mismatch".  (`ret != func_ret` compares `Type` node objects
by identity in Python — no registered handler ever returns one, so the
comparison is modelled structurally without loss.) -/
def check_block (fuel : Nat) (stmts : List Stmt) (structs : SDict)
    (func_ret : Option Ty) : Option (Except PyErr (Option Ty)) :=
  match fuel with
  | 0 => Option.none
  | fuel + 1 =>
    match stmts with
    | [] => some (.ok func_ret)
    | s :: rest =>
      match check_stmt_in_block fuel s structs with
      | Option.none => Option.none
      | some (.error e) => some (.error e)
      | some (.ok ret) =>
        match ret with
        | Option.none => check_block fuel rest structs func_ret
        | some r =>
          match func_ret with
          | Option.none => check_block fuel rest structs (some r)
          | some fr =>
            if fr ≠ r then some (.error (.semantics (stmtLine s) "return type mismatch"))
            else check_block fuel rest structs func_ret

end

/-- `check(func.stmt, structs)` in `check_func` (two positional
arguments): a block body goes to `check_block`, a bare declaration body to
`check_vardecl` (legal with two arguments — it checks the type and returns
`None`), anything else to the generic fallback returning `None`. -/
def check_func_body (fuel : Nat) (s : Stmt) (structs : SDict) :
    Option (Except PyErr (Option Ty)) :=
  match s with
  | .BlockStatement _ stmts => check_block fuel stmts structs Option.none
  | .VarDeclStatement line ty _ =>
    match type_exists ty.type structs line with
    | .error e => some (.error e)
    | .ok _ => some (.ok Option.none)
  | _ => some (.ok Option.none)

def check_func_args (args : List VDecl) (structs : SDict)
    (argnames : List TVal) : Except PyErr Unit :=
  match args with
  | [] => .ok ()
  | a :: rest =>
    if argnames.contains a.name then
      .error (.semantics a.line
        ("function argument " ++ tvalText a.name ++ " defined twice"))
    else
      match type_exists a.type.type structs a.line with
      | .error e => .error e
      | .ok _ => check_func_args rest structs (a.name :: argnames)

/-- typecheck.py `check_func`: return type exists, no duplicate parameter
names, parameter types exist, then compare the collected body return type
with the declared one.  `body_type != func.type` is `None != <Type node>`
whenever no type was collected, which is true, raising the mismatch
error; a collected `Type` could only compare equal by object identity,
which never holds, modelled by the structural comparison below (the
collected side is always `None` anyway, see `check_stmt_in_block`). -/
def check_func (fuel : Nat) (fn : FuncNode) (structs : SDict) :
    Option (Except PyErr Unit) :=
  match type_exists fn.type.type structs fn.line with
  | .error e => some (.error e)
  | .ok _ =>
    match check_func_args fn.args structs [] with
    | .error e => some (.error e)
    | .ok _ =>
      match check_func_body fuel fn.stmt structs with
      | Option.none => Option.none
      | some (.error e) => some (.error e)
      | some (.ok body_type) =>
        if body_type ≠ some fn.type then
          some (.error (.semantics fn.type.line
            "return type mismatch or missing return statement"))
        else some (.ok ())

/-- typecheck.py `check_funcs`: check every function against the struct
dictionary. -/
def check_funcs (fuel : Nat) (funcs : List FuncNode) (structs : SDict) :
    Option (Except PyErr Unit) :=
  match funcs with
  | [] => some (.ok ())
  | f :: rest =>
    match check_func fuel f structs with
    | Option.none => Option.none
    | some (.error e) => some (.error e)
    | some (.ok _) => check_funcs fuel rest structs

/-! ## Whole-pipeline helpers (main.py's flow, sans printing) -/

inductive CompErr where
  | parseE (e : PErr)
  | semE (e : PyErr)
deriving DecidableEq, Repr

/-- The struct list parsed from a source string (empty when the parse does
not succeed; every use below is on a source that parses). -/
def structsOf (fuel : Nat) (src : String) : List StructNode :=
  match parseTop fuel (tokenize src) with
  | some (.ok ((_, ss), _)) => ss
  | _ => []

def funcsOf (fuel : Nat) (src : String) : List FuncNode :=
  match parseTop fuel (tokenize src) with
  | some (.ok ((fs, _), _)) => fs
  | _ => []

/-- main.py: tokenize, parse, `check_structs`, `check_funcs` — run in a
fresh process (the shared `scope` set starts empty). -/
def compileUnit (fuel : Nat) (src : String) : Option (Except CompErr Unit) :=
  match parseTop fuel (tokenize src) with
  | Option.none => Option.none
  | some (.error e) => some (.error (.parseE e))
  | some (.ok ((funcs, structs), _)) =>
    match check_structs fuel structs [] with
    | Option.none => Option.none
    | some (.error e, _) => some (.error (.semE e))
    | some (.ok d, _) =>
      match check_funcs fuel funcs d with
      | Option.none => Option.none
      | some (.error e) => some (.error (.semE e))
      | some (.ok _) => some (.ok ())

/-! ## Nontermination of `parse_unary`'s repetition loop

parser.py's loop `while tok.peek == t: ... level += 1` never calls
`tok.next()`, so when the lookahead has the same kind as `t` (and `t` is
not `sizeof`, which raises) the loop condition never changes.  The lemmas
below show the fuel-indexed translation returns `Option.none` for EVERY
fuel value on such inputs — i.e. the Python loop runs forever — and
propagate that through the expression-precedence chain. -/

theorem unary_rep_loop_stuck (f : Nat) :
    ∀ (lvl : Nat) (t : Token) (ts : List Token),
      (peekT ts).type = t.type → t.type ≠ "sizeof" →
      unary_rep_loop f t lvl ts = Option.none := by
  induction f with
  | zero => intro lvl t ts _ _; rfl
  | succ n ih =>
    intro lvl t ts h1 h2
    simp only [unary_rep_loop]
    rw [if_pos h1, if_neg h2]
    exact ih (lvl + 1) t ts h1 h2

theorem parse_unary_stuck (f : Nat) (t t2 : Token) (rest : List Token)
    (hop : ["-", "~", "*", "&", "sizeof"].contains t.type = true)
    (hsz : t.type ≠ "sizeof")
    (heq : t2.type = t.type) :
    parse_unary f (t :: t2 :: rest) = Option.none := by
  cases f with
  | zero => rfl
  | succ n =>
    simp only [parse_unary, peekT, List.headD, hop, Bool.not_true,
      Bool.false_eq_true, if_false, nextT, List.tail_cons]
    rw [unary_rep_loop_stuck n 1 t (t2 :: rest) heq hsz]
    rfl

theorem parse_bitwise_stuck (f : Nat) (t t2 : Token) (rest : List Token)
    (hop : ["-", "~", "*", "&", "sizeof"].contains t.type = true)
    (hsz : t.type ≠ "sizeof")
    (heq : t2.type = t.type) :
    parse_bitwise f (t :: t2 :: rest) = Option.none := by
  cases f with
  | zero => rfl
  | succ n =>
    simp only [parse_bitwise]
    rw [parse_unary_stuck n t t2 rest hop hsz heq]
    rfl

theorem parse_shift_stuck (f : Nat) (t t2 : Token) (rest : List Token)
    (hop : ["-", "~", "*", "&", "sizeof"].contains t.type = true)
    (hsz : t.type ≠ "sizeof")
    (heq : t2.type = t.type) :
    parse_shift f (t :: t2 :: rest) = Option.none := by
  cases f with
  | zero => rfl
  | succ n =>
    simp only [parse_shift]
    rw [parse_bitwise_stuck n t t2 rest hop hsz heq]
    rfl

theorem parse_mult_stuck (f : Nat) (t t2 : Token) (rest : List Token)
    (hop : ["-", "~", "*", "&", "sizeof"].contains t.type = true)
    (hsz : t.type ≠ "sizeof")
    (heq : t2.type = t.type) :
    parse_mult f (t :: t2 :: rest) = Option.none := by
  cases f with
  | zero => rfl
  | succ n =>
    simp only [parse_mult]
    rw [parse_shift_stuck n t t2 rest hop hsz heq]
    rfl

theorem parse_expression_stuck (f : Nat) (t t2 : Token) (rest : List Token)
    (hop : ["-", "~", "*", "&", "sizeof"].contains t.type = true)
    (hsz : t.type ≠ "sizeof")
    (heq : t2.type = t.type) :
    parse_expression f (t :: t2 :: rest) = Option.none := by
  cases f with
  | zero => rfl
  | succ n =>
    simp only [parse_expression]
    rw [parse_mult_stuck n t t2 rest hop hsz heq]
    rfl

/-! ## Claim theorems -/

/-- C1: the claim says parsing `--x` terminates and produces the same AST
as parsing `x`, and parsing `-x` produces one UnaryOp("-", Variable "x").
The `-x` half holds (third conjunct).  The `--x` half is FALSE: `--x`
tokenizes to two `-` tokens followed by the identifier (first conjunct),
and on that token sequence `parse_expression` returns `Option.none` for
every fuel bound and every identifier name (second conjunct) — the
repetition loop in `parse_unary` never advances the token stream, so the
Python parser loops forever and the parse-time cancellation branch is
unreachable. -/
theorem c1_double_negation :
    tokenize "--x" =
      [⟨"-", .str "-", 1⟩, ⟨"-", .str "-", 1⟩, ⟨"id", .str "x", 1⟩] ∧
    (∀ (fuel : Nat) (name : String),
      parse_expression fuel
        [⟨"-", .str "-", 1⟩, ⟨"-", .str "-", 1⟩, ⟨"id", .str name, 1⟩] =
        Option.none) ∧
    parse_expression 100 (tokenize "-x") =
      some (.ok (.UnaryOp 1 "-" (.Variable 1 (.str "x")), [])) := by
  refine ⟨rfl, ?_, rfl⟩
  intro fuel name
  exact parse_expression_stuck fuel ⟨"-", .str "-", 1⟩ ⟨"-", .str "-", 1⟩
    [⟨"id", .str name, 1⟩] (by decide) (by decide) rfl

/-- C5: the claim says parsing `**p` terminates with one
PointerOp(deref, level 2), distinct from `*p` (level 1), and that `*`/`&`
runs never cancel.  The `*p` half holds (third conjunct: one PointerOp
with op `*` and level 1).  The `**p` half is FALSE: on the tokens of
`**p` (first conjunct) `parse_expression` returns `Option.none` for every
fuel bound (second conjunct) — the same non-advancing repetition loop of
`parse_unary` makes the Python parser loop forever, so no level-2
PointerOp is ever built. -/
theorem c5_double_deref :
    tokenize "**p" =
      [⟨"*", .str "*", 1⟩, ⟨"*", .str "*", 1⟩, ⟨"id", .str "p", 1⟩] ∧
    (∀ (fuel : Nat) (name : String),
      parse_expression fuel
        [⟨"*", .str "*", 1⟩, ⟨"*", .str "*", 1⟩, ⟨"id", .str name, 1⟩] =
        Option.none) ∧
    parse_expression 100 (tokenize "*p") =
      some (.ok (.PointerOp 1 "*" (.Variable 1 (.str "p")) 1, [])) := by
  refine ⟨rfl, ?_, rfl⟩
  intro fuel name
  exact parse_expression_stuck fuel ⟨"*", .str "*", 1⟩ ⟨"*", .str "*", 1⟩
    [⟨"id", .str name, 1⟩] (by decide) (by decide) rfl

/-- C4: the claim says `a >> b & c` parses successfully as
BinaryOp(">>", a, BinaryOp("&", b, c)) — bitwise binding tighter than
shift.  FALSE: `parse_shift` parses each right operand with `parse_unary`
(not `parse_bitwise`), so the expression parse stops after `a >> b`,
leaving the tokens `& c` unconsumed (first conjunct); as a statement the
leftover `&` then fails the `expect(tok, ";")`, raising a
ParserException "expected ;" (second conjunct). -/
theorem c4_shift_bitwise_precedence :
    parse_expression 100 (tokenize "a >> b & c") =
      some (.ok (.BinaryOp 1 ">>" (.Variable 1 (.str "a")) (.Variable 1 (.str "b")),
        [⟨"&", .str "&", 1⟩, ⟨"id", .str "c", 1⟩])) ∧
    parse_statement 100 (tokenize "x = a >> b & c;") =
      some (.error ⟨1, "expected ;"⟩) :=
  ⟨rfl, rfl⟩

/-- C2: the claim says a function whose reachable returns all match the
declared type validates (e.g. `u8 f(u8 x) { return x; }`), and a `u8`
function returning a string raises a SemanticsError.  The error half
holds (second conjunct), but the positive half is FALSE: the dispatch
table has no handler for RetStatement, so no return type is ever
collected, the body type is always `None`, and `check_func` raises
"return type mismatch or missing return statement" for the well-typed
function as well (first conjunct). -/
theorem c2_return_type_check :
    compileUnit 300 "u8 f(u8 x) { return x; }" =
      some (.error (.semE
        (.semantics 1 "return type mismatch or missing return statement"))) ∧
    compileUnit 300 "u8 f() \x7b return \x22str\x22; \x7d" =
      some (.error (.semE
        (.semantics 1 "return type mismatch or missing return statement"))) :=
  ⟨rfl, rfl⟩

/-- C3: the claim says an undefined member base type always raises a
SemanticsError, including when reached by expanding an embedded struct.
The direct-member case does raise a SemanticsError (second conjunct), but
the expansion case is FALSE: when `Outer` (checked first) expands `Inner`
whose member type `Bogus` is undefined, `expand_struct` reaches its
undefined-type branch and calls `type_exists(decl)` with one argument —
a Python TypeError, not a SemanticsError, and one that main.py does not
catch (first conjunct; the scope set is also left holding both struct
names). -/
theorem c3_undefined_type_in_expansion :
    check_structs 100
      (structsOf 300 "struct Outer { Inner i; } struct Inner { Bogus b; }") [] =
      some (.error (.typeErr
        "type_exists() missing 2 required positional arguments: structs and line"),
        [TVal.str "Inner", TVal.str "Outer"]) ∧
    check_structs 100 (structsOf 300 "struct S { Bogus b; }") [] =
      some (.error (.semantics 1 "type Bogus not found"), []) :=
  ⟨rfl, rfl⟩

/-- C6: checking `struct Inner{u8 a;} struct Outer{Inner i; u16 b;}`
(fresh scope) flattens `Outer` to fields `i.a` at byte offset 0 (the u8,
width 1) and `b` at byte offset 1 (the u16, width 2), with total size 3,
and `Inner` to `a` at offset 0 with size 1 — exactly as the claim
states. -/
theorem c6_struct_flattening :
    check_structs 100
      (structsOf 300 "struct Inner{u8 a;} struct Outer{Inner i; u16 b;}") [] =
      some (.ok
        [(.str "Inner",
          ⟨1, .str "Inner",
           [⟨1, ⟨1, .str "u8", 0⟩, .str "a", some 0⟩], some 1⟩),
         (.str "Outer",
          ⟨1, .str "Outer",
           [⟨1, ⟨1, .str "u8", 0⟩, .str "i.a", some 0⟩,
            ⟨1, ⟨1, .str "u16", 0⟩, .str "b", some 1⟩], some 3⟩)],
        []) :=
  rfl

/-- C7: checking `struct A { A x; }` (value-type self-reference, fresh
scope) raises the SemanticsError "recursive struct definition" (first
conjunct), while `struct A { A* x; }` succeeds with member `x` occupying
one pointer-sized slot: offset 0, total size `pointer_size = 8`, no cycle
error (second conjunct). -/
theorem c7_struct_cycle :
    check_structs 100 (structsOf 300 "struct A { A x; }") [] =
      some (.error (.semantics 1 "recursive struct definition"), [.str "A"]) ∧
    check_structs 100 (structsOf 300 "struct A { A* x; }") [] =
      some (.ok
        [(.str "A",
          ⟨1, .str "A", [⟨1, ⟨1, .str "A", 1⟩, .str "x", some 0⟩], some 8⟩)],
        []) :=
  ⟨rfl, rfl⟩

/-- C8: the claim says no component except the tokenizer's matcher holds
state across calls, and in particular the "currently expanding" cycle
guard is empty at the start of every top-level struct check.  FALSE:
`expand_struct`'s `scope=set()` default argument is one shared set per
process.  First conjunct: checking `struct A { A x; }` raises and leaves
"A" in the shared set.  Second conjunct: in a fresh state the program
`struct B { A f; } struct A { u8 x; }` checks successfully.  Third
conjunct: the same program checked with the leftover state {"A"} —
i.e. run after the earlier raise in the same process — spuriously raises
"recursive struct definition", a different outcome on equal input. -/
theorem c8_expand_scope_leaks_across_calls :
    check_structs 100 (structsOf 300 "struct A { A x; }") [] =
      some (.error (.semantics 1 "recursive struct definition"), [.str "A"]) ∧
    check_structs 100 (structsOf 300 "struct B { A f; } struct A { u8 x; }") [] =
      some (.ok
        [(.str "B",
          ⟨1, .str "B", [⟨1, ⟨1, .str "u8", 0⟩, .str "f.x", some 0⟩], some 1⟩),
         (.str "A",
          ⟨1, .str "A", [⟨1, ⟨1, .str "u8", 0⟩, .str "x", some 0⟩], some 1⟩)],
        []) ∧
    check_structs 100 (structsOf 300 "struct B { A f; } struct A { u8 x; }")
        [.str "A"] =
      some (.error (.semantics 1 "recursive struct definition"),
        [.str "B", .str "A"]) :=
  ⟨rfl, rfl, rfl⟩

/-- C9: the statement `u8 x = 5;` inside a block parses to two adjacent
statements — a VarDecl of `x : {u8, 0}` then an Assign of `x` to
IntLiteral 5 — never one combined node.  First conjunct: the full
pipeline on `u8 f() { u8 x = 5; }` yields exactly that block.  Second
conjunct: for ANY continuation of the token stream, `parse_statement` on
the tokens of `u8 x = 5;` returns the (decl, assign) pair that
`parse_block` splices as two adjacent statements. -/
theorem c9_decl_with_initializer_desugars :
    parseTop 300 (tokenize "u8 f() { u8 x = 5; }") =
      some (.ok
        (([⟨1, ⟨1, .str "u8", 0⟩, .str "f", [],
            .BlockStatement 1
              [.VarDeclStatement 1 ⟨1, .str "u8", 0⟩ (.str "x"),
               .AssignStatement 1 (.str "x") (.ILiteral 1 (.int 5))]⟩], []),
          [])) ∧
    (∀ rest : List Token,
      parse_statement 50
        ([⟨"id", .str "u8", 1⟩, ⟨"id", .str "x", 1⟩, ⟨"=", .str "=", 1⟩,
          ⟨"int", .int 5, 1⟩, ⟨";", .str ";", 1⟩] ++ rest) =
        some (.ok
          (.TupleStmt (.VarDeclStatement 1 ⟨1, .str "u8", 0⟩ (.str "x"))
            (.AssignStatement 1 (.str "x") (.ILiteral 1 (.int 5))), rest))) :=
  ⟨rfl, fun _ => rfl⟩

/-- C10: an invalid character (`$`) at a top-level declaration boundary
ends the token sequence silently (`Lexer.tokenize` just breaks; it never
raises, and no eof token is emitted), and `parse` — treating stream
exhaustion as end-of-source — returns only the declarations before the
failure offset as a successful result: here exactly the first function,
with `u8 g() { return 2; }` dropped and no LexError or ParseError. -/
theorem c10_lexer_failure_truncates_silently :
    parseTop 300 (tokenize "u8 f() { return 1; } $ u8 g() { return 2; }") =
      some (.ok
        (([⟨1, ⟨1, .str "u8", 0⟩, .str "f", [],
            .BlockStatement 1 [.RetStatement 1 (.ILiteral 1 (.int 1))]⟩], []),
          [])) :=
  rfl

end Compyler
